import Mathlib

/-!
Shallow embedding of the Elix career-advisor backend (`app.py`).

Python strings are modelled as Lean `String` (ASCII lower-casing agrees with
Python `.lower()` on the data involved), Python floats as `ℚ` (the arithmetic
in the source is decimal; `round(x, 1)` is modelled exactly, with Python's
round-half-to-even tie rule), Python dicts as insertion-ordered association
lists, and missing/NaN numeric cells as `none : Option ℚ`.
-/

set_option autoImplicit false

namespace Elix

/-- `leadsWith n h` is true when `n` is an initial segment of `h`. -/
def leadsWith : List Char → List Char → Bool
  | [], _ => true
  | _ :: _, [] => false
  | a :: as, b :: bs => a == b && leadsWith as bs

/-- `hasSeq n h` is true when `n` occurs contiguously inside `h`. -/
def hasSeq (n : List Char) : List Char → Bool
  | [] => n.isEmpty
  | c :: t => leadsWith n (c :: t) || hasSeq n t

/-- Python `needle in haystack` on strings: substring test. -/
def pyIn (needle haystack : String) : Bool :=
  hasSeq needle.data haystack.data

/-- Python `s.lower()` (the data is ASCII, where this agrees with Unicode
lower-casing). -/
def pyLower (s : String) : String :=
  ⟨s.data.map Char.toLower⟩

/-- Drop leading whitespace characters. -/
def dropLeadWs : List Char → List Char
  | [] => []
  | c :: t => if c.isWhitespace then dropLeadWs t else c :: t

/-- Python `s.strip()`: drop leading and trailing whitespace. -/
def pyStrip (s : String) : String :=
  ⟨((dropLeadWs ((dropLeadWs s.data).reverse)).reverse)⟩

/-- Split a character list at every character satisfying `p`, keeping empty
pieces (the semantics of Python `s.split(sep)` for a one-character `sep`,
with `p` matching exactly `sep`). -/
def splitPred (p : Char → Bool) : List Char → List (List Char)
  | [] => [[]]
  | c :: t =>
    let r := splitPred p t
    if p c then [] :: r
    else
      match r with
      | [] => [[c]]
      | h :: t2 => (c :: h) :: t2

/-- Python `s.split(sep)` for a one-character separator. -/
def pySplitOnChar (sep : Char) (s : String) : List String :=
  (splitPred (fun c => c == sep) s.data).map String.mk

/-- Python `s.split()`: split on whitespace, dropping empty pieces. -/
def pySplitWs (s : String) : List String :=
  ((splitPred Char.isWhitespace s.data).map String.mk).filter (fun p => p ≠ "")

/-- Python `round(x, 1)` on an exact decimal value: round to the nearest
multiple of 1/10, ties to the even digit. -/
def round1 (x : ℚ) : ℚ :=
  let y := x * 10
  let f : ℤ := Int.floor y
  let r := y - (f : ℚ)
  let n : ℤ :=
    if r < 1/2 then f
    else if 1/2 < r then f + 1
    else if f % 2 = 0 then f else f + 1
  (n : ℚ) / 10

/-- `safe_split` (app.py:75-81): split on ";" if present, else on "," if
present, trimming pieces and dropping empty ones; otherwise the singleton of
the trimmed string (note: the no-separator branch does NOT drop an empty
result). The `None`/NaN/float guards of the source never fire on the string
fields as used (callers pass `str(... or "")`), so the input is a `String`. -/
def safe_split (s : String) : List String :=
  if pyIn ";" s then
    ((pySplitOnChar ';' s).map pyStrip).filter (fun p => p ≠ "")
  else if pyIn "," s then
    ((pySplitOnChar ',' s).map pyStrip).filter (fun p => p ≠ "")
  else
    [pyStrip s]

/-- One row of the dataset, after `load_dataset`'s `pd.to_numeric` coercion:
numeric columns are `Option ℚ` (none = NaN / unparsable), the delimited
columns stay raw strings and are split on access, as in the source. -/
structure Record where
  student_id : String
  name : String
  gpa : Option ℚ
  m10 : Option ℚ
  m12 : Option ℚ
  skills : String
  domain : String
  career_suggestions : String
  internships : String
  certifications : String
deriving DecidableEq, Repr

/-- The three sample rows written by `load_dataset` when no dataset file
exists (app.py:43-58). -/
def SAMPLE_ROW1 : Record :=
  { student_id := "1001", name := "Aishwarya Iyer", gpa := some 9.06
    m10 := some 95, m12 := some 92
    skills := "Excel;Power BI;NumPy;JavaScript;SQL"
    domain := "Data"
    career_suggestions := "Data Analyst;Business Analyst;Data Scientist;BI Developer"
    internships := "Analytics Intern at X;BI Intern at Y"
    certifications := "Power BI Cert;Excel Advanced" }

def SAMPLE_ROW2 : Record :=
  { student_id := "1002", name := "Aarav Kumar", gpa := some 8.2
    m10 := some 88, m12 := some 86
    skills := "Python;Machine Learning;SQL"
    domain := "AI"
    career_suggestions := "ML Engineer;Data Scientist;AI Researcher;MLOps Engineer"
    internships := "ML Intern at Z"
    certifications := "ML Nanodegree;Python Cert" }

def SAMPLE_ROW3 : Record :=
  { student_id := "1003", name := "Priya Sharma", gpa := some 7.8
    m10 := some 85, m12 := some 83
    skills := "Java;Networks;Security"
    domain := "Cybersecurity"
    career_suggestions := "Security Engineer;SOC Analyst;Penetration Tester;Security Consultant"
    internships := "Security Intern at Q"
    certifications := "CEH;Network+" }

def SAMPLE_DATA : List Record := [SAMPLE_ROW1, SAMPLE_ROW2, SAMPLE_ROW3]

/-- The per-record condition actually checked by `find_profile`
(app.py:90-94), with `q` the already trimmed and lower-cased query:
exact id / exact name / name contains query / exact domain, or some
skill is a substring of the query. -/
def rowMatches (q : String) (r : Record) : Bool :=
  let sid := pyLower (pyStrip r.student_id)
  let name := pyLower (pyStrip r.name)
  let domain := pyLower (pyStrip r.domain)
  (q == sid) || (q == name) || pyIn q name || (q == domain)
    || (safe_split r.skills).any (fun sk => pyIn (pyLower (pyStrip sk)) q)

/-- The loop body of `find_profile` (app.py:85-94): the first `if` returns on
the id/name/domain disjunction, the inner `for` returns on a skill hit. -/
def findGo (q : String) : List Record → Option Record
  | [] => none
  | r :: rest =>
    let sid := pyLower (pyStrip r.student_id)
    let name := pyLower (pyStrip r.name)
    let domain := pyLower (pyStrip r.domain)
    if (q == sid) || (q == name) || pyIn q name || (q == domain) then some r
    else if (safe_split r.skills).any (fun sk => pyIn (pyLower (pyStrip sk)) q) then some r
    else findGo q rest

/-- `find_profile` (app.py:83-95), parameterised by the dataset rows. -/
def find_profile (rows : List Record) (query : String) : Option Record :=
  findGo (pyLower (pyStrip query)) rows

/-- The per-record condition as the resolver claim states it: the source's
checks plus "the query contains the record's domain" and "the query contains
the record's name" inside the substring clause. Written from the claim's
words, to be compared with `rowMatches`. -/
def claimRowMatches (q : String) (r : Record) : Bool :=
  let sid := pyLower (pyStrip r.student_id)
  let name := pyLower (pyStrip r.name)
  let domain := pyLower (pyStrip r.domain)
  (q == sid) || (q == name)
    || pyIn domain q || pyIn name q || pyIn q name
    || (q == domain)
    || (safe_split r.skills).any (fun sk => pyIn (pyLower (pyStrip sk)) q)

/-- The raw weighted score accumulated by `performance_level`
(app.py:98-113): gpa/10·50 + m10/100·25 + m12/100·25, a missing (NaN or
unparsable) component contributing 0. -/
def raw_score (gpa m10 m12 : Option ℚ) : ℚ :=
  (match gpa with | some g => g / 10 * 50 | none => 0)
  + (match m10 with | some m => m / 100 * 25 | none => 0)
  + (match m12 with | some m => m / 100 * 25 | none => 0)

/-- `performance_level` (app.py:97-120): the level thresholds are applied to
the unrounded score; the returned score is rounded to 1 decimal. -/
def performance_level (gpa m10 m12 : Option ℚ) : String × ℚ :=
  let score := raw_score gpa m10 m12
  let level :=
    if score ≥ 85 then "Excellent"
    else if score ≥ 70 then "Good"
    else "Needs Improvement"
  (level, round1 score)

/-- Python `dict.get(k, default)` / `dict[k]` lookup on an insertion-ordered
association list. -/
def dlookup {β : Type} : List (String × β) → String → Option β
  | [], _ => none
  | (k, v) :: rest, key => if k = key then some v else dlookup rest key

/-- `DOMAIN_SKILL_MAP` (app.py:68-73). -/
def DOMAIN_SKILL_MAP : List (String × List String) :=
  [("AI", ["Python", "Machine Learning", "Deep Learning", "Statistics", "TensorFlow", "PyTorch"]),
   ("Data", ["SQL", "Excel", "Power BI", "Tableau", "Pandas", "NumPy", "Statistics"]),
   ("Cybersecurity", ["Linux", "Networking", "Ethical Hacking", "Firewalls", "Cryptography"]),
   ("Web Development", ["HTML", "CSS", "JavaScript", "React", "Node.js"])]

/-- The body of the `for r in reqs` loop of `compute_skill_fit`
(app.py:126-131), building the values list front to back. -/
def fitValues (skillsLower : List String) : List String → List Nat
  | [] => []
  | r :: rs =>
    (if skillsLower.contains (pyLower r) then 100
     else if (skillsLower.any fun sk => (pySplitWs r).any fun part => pyIn (pyLower part) sk)
     then 60 else 20)
      :: fitValues skillsLower rs

/-- `compute_skill_fit` (app.py:122-132). -/
def compute_skill_fit (skills_list : List String) (domain : String) :
    List String × List Nat :=
  let reqs := (dlookup DOMAIN_SKILL_MAP domain).getD []
  (reqs, fitValues (skills_list.map pyLower) reqs)

/-- The value assigned to one required skill, written from the claim's words:
100 if present verbatim (case-insensitively), else 60 on a whitespace-token
substring hit, else 20. To be compared with `fitValues`. -/
def claimFitValue (skills_list : List String) (r : String) : Nat :=
  if (skills_list.map pyLower).contains (pyLower r) then 100
  else if (pySplitWs r).any (fun t => (skills_list.map pyLower).any
    (fun sk => pyIn (pyLower t) sk)) then 60
  else 20

/-- Python `weights[-1] += diff`: bump the last element. -/
def addLast (d : ℚ) : List ℚ → List ℚ
  | [] => []
  | [x] => [x + d]
  | x :: xs => x :: addLast d xs

/-- `build_career_weights` (app.py:134-143), taking the raw
`Career_Suggestions` cell. -/
def build_career_weights (field : String) : List (String × ℚ) :=
  let careers := safe_split field
  if careers = [] then []
  else
    let even := round1 (100 / (careers.length : ℚ))
    let weights := List.replicate careers.length even
    let diff := round1 (100 - weights.sum)
    let weights := if diff ≠ 0 then addLast diff weights else weights
    careers.zip weights

/-- One entry of `SESSIONS`: chat history (sender, message pairs, in order)
and the owning user. -/
structure Session where
  history : List (String × String)
  user : String
deriving DecidableEq, Repr

/-- The in-memory `SESSIONS` dict, insertion-ordered. -/
abbrev Store := List (String × Session)

/-- Python `SESSIONS[k] = v`: replace in place, else append. -/
def dset : Store → String → Session → Store
  | [], k, v => [(k, v)]
  | (k0, v0) :: rest, k, v =>
    if k0 = k then (k0, v) :: rest else (k0, v0) :: dset rest k v

/-- Python `SESSIONS.setdefault(k, v)`. -/
def dsetdefault : Store → String → Session → Store
  | [], k, v => [(k, v)]
  | (k0, v0) :: rest, k, v =>
    if k0 = k then (k0, v0) :: rest else (k0, v0) :: dsetdefault rest k v

/-- Python `SESSIONS[k]["history"].append(m)` (the key is present when the
source performs this). -/
def appendHist : Store → String → (String × String) → Store
  | [], _, _ => []
  | (k0, s) :: rest, k, m =>
    if k0 = k then (k0, ⟨s.history ++ [m], s.user⟩) :: rest
    else (k0, s) :: appendHist rest k m

/-- The hardcoded demo credential table `USERS` (app.py:38). -/
def USERS : List (String × String) :=
  [("kirubha", "12345"), ("admin", "admin123")]

/-- A `/login` response body.  `session_id := none` models the key being
absent from the returned JSON object. -/
structure LoginResp where
  status : String
  session_id : Option String
  message : String
deriving DecidableEq, Repr

/-- `login` (app.py:146-161).  The request body's missing fields default to
`""` (`data.get(..., "")`), and `not username` is `username = ""`; the uuid4
value is passed in as `freshId`. -/
def login (st : Store) (username password freshId : String) :
    Store × LoginResp :=
  if username = "" ∨ password = "" then
    (dset st freshId ⟨[], "guest"⟩,
     ⟨"guest", some freshId, "Guest session started"⟩)
  else if dlookup USERS username = some password then
    (dset st username ⟨[], username⟩,
     ⟨"ok", some username, "Welcome " ++ username⟩)
  else
    (st, ⟨"error", none, "Invalid credentials"⟩)

/-- Rendering of an optional numeric cell inside an f-string.  The exact
digits of Python float repr are not reproduced (no claim depends on them);
the mapping is still injective on the values that occur. -/
def numStr : Option ℚ → String
  | some q => toString q
  | none => "nan"

/-- The `roadmaps["Data"]` roadmap (app.py:229-235). -/
def dataRoadmap : List (String × String) :=
  [("Excel + SQL Mastery", "Learn query optimization & reporting"),
   ("Visualization Projects", "Power BI / Tableau dashboards"),
   ("Internship in Data Analytics", "Business Analyst or Data Analyst roles"),
   ("Certifications", "Google Data Analytics, Power BI Cert"),
   ("Placement Prep", "Case study solving, mock interviews")]

/-- The `roadmaps` dict built inside `ask` (app.py:214-243); each entry is a
list of (step, desc) pairs. -/
def ROADMAPS : List (String × List (String × String)) :=
  [("AI",
    [("Learn Python + ML basics", "Cover Python, statistics, and ML frameworks"),
     ("Deep Learning Projects", "Work on CNN, NLP projects"),
     ("Internship in AI/ML", "Apply AI concepts in real-world tasks"),
     ("Certifications", "TensorFlow, AWS ML Specialty"),
     ("Placement Prep", "Mock interviews + case studies")]),
   ("Cybersecurity",
    [("Networking + OS Fundamentals", "Linux, Windows security basics"),
     ("Hands-on Projects", "Firewalls, intrusion detection labs"),
     ("Internship in Security", "SOC or PenTest roles"),
     ("Certifications", "CEH, CompTIA Security+"),
     ("Placement Prep", "CTF challenges, resume building")]),
   ("Data", dataRoadmap),
   ("Web Development",
    [("Frontend Skills", "Master HTML, CSS, JavaScript"),
     ("Backend Basics", "Learn Node.js, FastAPI, or Django"),
     ("Internship in Web Dev", "Work as a frontend or full-stack intern"),
     ("Certifications", "ReactJS, AWS Developer"),
     ("Placement Prep", "LeetCode practice, mock interviews")])]

/-- `default_internships` (app.py:246-251). -/
def DEFAULT_INTERNSHIPS : List (String × List String) :=
  [("AI", ["AI Intern at Google", "ML Intern at TCS"]),
   ("Cybersecurity", ["SOC Analyst Intern", "Network Security Intern"]),
   ("Data", ["Analytics Intern at Deloitte", "BI Developer Intern at Infosys"]),
   ("Web Development", ["Frontend Intern at Startup", "Full-Stack Intern at Wipro"])]

/-- `default_certifications` (app.py:252-257). -/
def DEFAULT_CERTIFICATIONS : List (String × List String) :=
  [("AI", ["AWS ML Specialty", "TensorFlow Developer"]),
   ("Cybersecurity", ["CEH", "CompTIA Security+"]),
   ("Data", ["Google Data Analytics", "Power BI Certification"]),
   ("Web Development", ["ReactJS Certification", "AWS Developer Associate"])]

/-- The `insights` JSON object assembled by `ask` (app.py:262-276). -/
structure Insights where
  student_id : String
  name : String
  gpa : Option ℚ
  marks10 : Option ℚ
  marks12 : Option ℚ
  skills : List String
  domain : String
  career_suggestions : List (String × ℚ)
  internships : List String
  certifications : List String
  performance : String × ℚ
  radar : List String × List Nat
  summary_text : String
  roadmap : List (String × String)
deriving DecidableEq, Repr

/-- A `/ask` response body: `plain` is an object holding only an `answer`
key (no `insights`, no `session_id`); `full` carries all three keys. -/
inductive AskResp where
  | plain (answer : String)
  | full (answer : String) (insights : Insights) (session_id : String)
deriving DecidableEq, Repr

/-- The guidance text returned on an empty query (app.py:180). -/
def emptyQueryMsg : String := "Please send a Student ID, Name, or skill."

/-- The text returned when no profile matches (app.py:184). -/
def noMatchMsg : String :=
  "I couldn’t find your profile. Please tell me your Student ID, Name, or Skills."

/-- `ask` (app.py:163-279) on an already parsed JSON body: `queryRaw` is
`str(data.get("query",""))`, `sidOpt` is `data.get("session_id")` (none =
key absent), and `freshId` stands for the `uuid.uuid4()` value drawn when
the session id is missing or empty. Returns the updated `SESSIONS` store
and the response body. -/
def ask (rows : List Record) (st : Store) (queryRaw : String)
    (sidOpt : Option String) (freshId : String) : Store × AskResp :=
  let query := pyStrip queryRaw
  let sid := match sidOpt with
    | none => freshId
    | some s => if s = "" then freshId else s
  let st1 := match sidOpt with
    | none => dset st freshId ⟨[], "guest"⟩
    | some s => if s = "" then dset st freshId ⟨[], "guest"⟩ else st
  let st2 := dsetdefault st1 sid ⟨[], "guest"⟩
  let st3 := appendHist st2 sid ("user", query)
  if query = "" then (st3, .plain emptyQueryMsg)
  else
    match find_profile rows query with
    | none => (appendHist st3 sid ("elix", noMatchMsg), .plain noMatchMsg)
    | some profile =>
      let skills := safe_split profile.skills
      let domain := profile.domain
      let careers := build_career_weights profile.career_suggestions
      let internships0 := safe_split profile.internships
      let certifications0 := safe_split profile.certifications
      let lp := performance_level profile.gpa profile.m10 profile.m12
      let radar := compute_skill_fit skills domain
      let top_careers :=
        if careers = [] then "some options"
        else String.intercalate ", " ((careers.take 3).map Prod.fst)
      let summary :=
        "Hi " ++ profile.name ++ ". Based on your profile (G P A "
          ++ numStr profile.gpa ++ "), top suggested careers include: "
          ++ top_careers ++ ". Your performance level is " ++ lp.1 ++ "."
      let selected_roadmap := (dlookup ROADMAPS domain).getD dataRoadmap
      let internships :=
        if internships0 = [] then (dlookup DEFAULT_INTERNSHIPS domain).getD []
        else internships0
      let certifications :=
        if certifications0 = [] then (dlookup DEFAULT_CERTIFICATIONS domain).getD []
        else certifications0
      let ins : Insights :=
        { student_id := profile.student_id
          name := profile.name
          gpa := profile.gpa
          marks10 := profile.m10
          marks12 := profile.m12
          skills := skills
          domain := domain
          career_suggestions := careers
          internships := internships
          certifications := certifications
          performance := (lp.1, lp.2)
          radar := radar
          summary_text := summary
          roadmap := selected_roadmap }
      (appendHist st3 sid ("elix", summary), .full summary ins sid)

/-- The effective session id used throughout one `/ask` call. -/
def effSid (sidOpt : Option String) (freshId : String) : String :=
  match sidOpt with
  | none => freshId
  | some s => if s = "" then freshId else s

/-- The session the `/ask` history append starts from: a fresh guest session
when the id is absent/empty (the fresh id is overwritten unconditionally) or
unknown, otherwise the stored session. -/
def preSession (st : Store) (sidOpt : Option String) : Session :=
  match sidOpt with
  | none => ⟨[], "guest"⟩
  | some s =>
    if s = "" then ⟨[], "guest"⟩
    else (dlookup st s).getD ⟨[], "guest"⟩

/-- One `drawString` call recorded on the canvas, with the font in force. -/
structure DrawCmd where
  font : String
  size : Nat
  x : Int
  y : Int
  text : String
deriving DecidableEq, Repr

/-- The reportlab canvas, as the handler drives it: completed pages, the page
being drawn, and the current font. -/
structure Canvas where
  pages : List (List DrawCmd)
  current : List DrawCmd
  font : String × Nat
deriving DecidableEq, Repr

def Canvas.new : Canvas := ⟨[], [], ("", 0)⟩

def Canvas.setFont (c : Canvas) (f : String) (sz : Nat) : Canvas :=
  { c with font := (f, sz) }

def Canvas.drawString (c : Canvas) (x y : Int) (s : String) : Canvas :=
  { c with current := c.current ++ [⟨c.font.1, c.font.2, x, y, s⟩] }

def Canvas.showPage (c : Canvas) : Canvas :=
  ⟨c.pages ++ [c.current], [], c.font⟩

/-- The bullet loop of `download_plan` (app.py:312-317 and the two copies):
draw "- item" at x=60, step y by 16, and start a new page at y=750 once
y < 80. -/
def drawItems (c : Canvas) (y : Int) : List String → Canvas × Int
  | [] => (c, y)
  | it :: rest =>
    let c := c.drawString 60 y ("- " ++ it)
    let y := y - 16
    if y < 80 then drawItems c.showPage 750 rest
    else drawItems c y rest

/-- One titled bullet section of `download_plan` (app.py:308-317 shape). -/
def drawSection (c : Canvas) (y : Int) (title : String) (items : List String) :
    Canvas × Int :=
  let c := (c.setFont "Helvetica-Bold" 13).drawString 40 y title
  let y := y - 18
  let c := c.setFont "Helvetica" 12
  drawItems c y items

/-- `download_plan` (app.py:281-341).  `.error 404` models the
`HTTPException(404)`.  On the found path the source draws the whole document
on the canvas and then falls off the end of the function: `c.save()` and
`return FileResponse(...)` (app.py:353-354) were misplaced into the `root`
handler after its `return`, so they are unreachable.  The handler therefore
produces no response body and never saves the PDF; this is modelled as
`.ok (canvas, none)`, the `Option String` slot being the returned file. -/
def download_plan (rows : List Record) (student_id : String) :
    Except Nat (Canvas × Option String) :=
  match rows.find? (fun r => pyStrip r.student_id == pyStrip student_id) with
  | none => .error 404
  | some row =>
    let name := if row.name = "" then "Student" else row.name
    let careers := safe_split row.career_suggestions
    let certifications := safe_split row.certifications
    let internships := safe_split row.internships
    let c := (Canvas.new.setFont "Helvetica-Bold" 16).drawString 40 750
      ("Career Plan — " ++ name ++ " (ID: " ++ student_id ++ ")")
    let c := c.setFont "Helvetica" 12
    let y : Int := 720
    let c := c.drawString 40 y ("GPA: " ++ numStr row.gpa)
    let y := y - 20
    let c := c.drawString 40 y
      ("10th Marks: " ++ numStr row.m10 ++ ", 12th Marks: " ++ numStr row.m12)
    let y := y - 30
    let (c, y) := drawSection c y "Career Suggestions:" careers
    let y := y - 10
    let (c, y) := drawSection c y "Certifications:" certifications
    let y := y - 10
    let (c, _) := drawSection c y "Internships / Experience:" internships
    .ok (c, none)

/-- The `insights` object of a `/ask` response, when the response has one. -/
def insightsOf : AskResp → Option Insights
  | .plain _ => none
  | .full _ ins _ => some ins

/- ------------------------------------------------------------------ -/
/- Helper lemmas                                                      -/
/- ------------------------------------------------------------------ -/

theorem map_fst_zip_eq {α β : Type} :
    ∀ (l : List α) (w : List β), l.length = w.length →
      (l.zip w).map Prod.fst = l
  | [], [], _ => rfl
  | [], _ :: _, h => by simp at h
  | _ :: _, [], h => by simp at h
  | a :: l, b :: w, h => by
    simp only [List.zip_cons_cons, List.map_cons, List.cons.injEq, true_and]
    exact map_fst_zip_eq l w (by simpa using h)

theorem map_snd_zip_eq {α β : Type} :
    ∀ (l : List α) (w : List β), l.length = w.length →
      (l.zip w).map Prod.snd = w
  | [], [], _ => rfl
  | [], _ :: _, h => by simp at h
  | _ :: _, [], h => by simp at h
  | a :: l, b :: w, h => by
    simp only [List.zip_cons_cons, List.map_cons, List.cons.injEq, true_and]
    exact map_snd_zip_eq l w (by simpa using h)

theorem addLast_length (d : ℚ) : ∀ l : List ℚ, (addLast d l).length = l.length
  | [] => rfl
  | [_] => rfl
  | _ :: _ :: xs => by
    simp only [addLast, List.length_cons]
    exact congrArg (· + 1) (addLast_length d (_ :: xs))

theorem addLast_replicate (d x : ℚ) :
    ∀ m : ℕ, addLast d (List.replicate (m + 1) x) = List.replicate m x ++ [x + d]
  | 0 => rfl
  | m + 1 => by
    rw [List.replicate_succ]
    show x :: addLast d (List.replicate (m + 1) x) = _
    rw [addLast_replicate d x m]
    simp [List.replicate_succ]

theorem sum_replicate_append_100 (m : ℕ) (e : ℚ) :
    (List.replicate m e ++ [100 - (m : ℚ) * e]).sum = 100 := by
  simp [List.sum_append, List.sum_replicate, nsmul_eq_mul]

theorem round1_shape (x : ℚ) : ∃ k : ℤ, round1 x = (k : ℚ) / 10 :=
  ⟨_, rfl⟩

theorem round1_tenths (k : ℤ) : round1 ((k : ℚ) / 10) = (k : ℚ) / 10 := by
  simp only [round1]
  have h10 : (k : ℚ) / 10 * 10 = (k : ℚ) := by field_simp
  rw [h10, Int.floor_intCast]
  norm_num

theorem round1_nonneg {x : ℚ} (hx : 0 ≤ x) : 0 ≤ round1 x := by
  simp only [round1]
  have hf : (0 : ℤ) ≤ ⌊x * 10⌋ := Int.floor_nonneg.mpr (by nlinarith)
  split_ifs <;> apply div_nonneg _ (by norm_num) <;>
    exact_mod_cast (by omega : (0 : ℤ) ≤ _)

theorem round1_le_100 {x : ℚ} (hx : x ≤ 100) : round1 x ≤ 100 := by
  simp only [round1]
  have h1 : (⌊x * 10⌋ : ℚ) ≤ x * 10 := Int.floor_le _
  have h2 : x * 10 ≤ 1000 := by linarith
  have hf : ⌊x * 10⌋ ≤ 1000 := by exact_mod_cast h1.trans h2
  split_ifs with hr h2' h3'
  · rw [div_le_iff (by norm_num : (0:ℚ) < 10)]
    have : ((⌊x * 10⌋ : ℤ) : ℚ) ≤ 1000 := by exact_mod_cast hf
    linarith
  all_goals {
    have hr2 : (1 : ℚ) / 2 ≤ x * 10 - (⌊x * 10⌋ : ℚ) := le_of_not_lt hr
    have hlt : ((⌊x * 10⌋ : ℤ) : ℚ) < 1000 := by linarith
    have hle : ⌊x * 10⌋ + 1 ≤ 1000 := by exact_mod_cast Int.add_one_le_of_lt (by exact_mod_cast hlt)
    rw [div_le_iff (by norm_num : (0:ℚ) < 10)]
    have : ((⌊x * 10⌋ + 1 : ℤ) : ℚ) ≤ 1000 := by exact_mod_cast hle
    push_cast at this ⊢
    linarith
  }

theorem career_weights_shape (n : ℕ) (e : ℚ) (he : ∃ k : ℤ, e = (k : ℚ) / 10) :
    (if round1 (100 - (List.replicate (n + 1) e).sum) ≠ 0
      then addLast (round1 (100 - (List.replicate (n + 1) e).sum))
        (List.replicate (n + 1) e)
      else List.replicate (n + 1) e)
    = List.replicate n e ++ [100 - (n : ℚ) * e] := by
  obtain ⟨k, rfl⟩ := he
  have hsum : (List.replicate (n + 1) ((k : ℚ) / 10)).sum
      = ((n + 1 : ℕ) : ℚ) * ((k : ℚ) / 10) := by
    rw [List.sum_replicate, nsmul_eq_mul]
  have hdv : (100 : ℚ) - ((n + 1 : ℕ) : ℚ) * ((k : ℚ) / 10)
      = ((1000 - (n + 1) * k : ℤ) : ℚ) / 10 := by
    push_cast; ring
  have hdiff : round1 (100 - (List.replicate (n + 1) ((k : ℚ) / 10)).sum)
      = (100 : ℚ) - ((n + 1 : ℕ) : ℚ) * ((k : ℚ) / 10) := by
    rw [hsum]
    calc round1 (100 - ((n + 1 : ℕ) : ℚ) * ((k : ℚ) / 10))
        = round1 (((1000 - (n + 1) * k : ℤ) : ℚ) / 10) := by rw [hdv]
      _ = ((1000 - (n + 1) * k : ℤ) : ℚ) / 10 := round1_tenths _
      _ = (100 : ℚ) - ((n + 1 : ℕ) : ℚ) * ((k : ℚ) / 10) := hdv.symm
  rw [hdiff]
  by_cases hz : (100 : ℚ) - ((n + 1 : ℕ) : ℚ) * ((k : ℚ) / 10) = 0
  · rw [if_neg (not_not_intro hz), List.replicate_succ']
    congr 1
    simp only [List.cons.injEq, and_true]
    push_cast at hz ⊢
    linarith
  · rw [if_pos hz, addLast_replicate]
    have h2 : (k : ℚ) / 10 + (100 - ((n + 1 : ℕ) : ℚ) * ((k : ℚ) / 10))
        = 100 - (n : ℚ) * ((k : ℚ) / 10) := by
      push_cast; ring
    rw [h2]

theorem dlookup_dset_self (st : Store) (k : String) (v : Session) :
    dlookup (dset st k v) k = some v := by
  induction st with
  | nil => simp [dset, dlookup]
  | cons p rest ih =>
    obtain ⟨k0, v0⟩ := p
    by_cases h : k0 = k <;> simp [dset, dlookup, h, ih]

theorem dlookup_dsetdefault_self (st : Store) (k : String) (v : Session) :
    dlookup (dsetdefault st k v) k = some ((dlookup st k).getD v) := by
  induction st with
  | nil => simp [dsetdefault, dlookup]
  | cons p rest ih =>
    obtain ⟨k0, v0⟩ := p
    by_cases h : k0 = k <;> simp [dsetdefault, dlookup, h, ih]

theorem dlookup_appendHist_self (st : Store) (k : String) (m : String × String) :
    dlookup (appendHist st k m) k =
      (dlookup st k).map (fun s => ⟨s.history ++ [m], s.user⟩) := by
  induction st with
  | nil => simp [appendHist, dlookup]
  | cons p rest ih =>
    obtain ⟨k0, v0⟩ := p
    by_cases h : k0 = k <;> simp [appendHist, dlookup, h, ih]

theorem findGo_eq_find (q : String) (rows : List Record) :
    findGo q rows = rows.find? (fun r => rowMatches q r) := by
  induction rows with
  | nil => rfl
  | cons r rest ih =>
    simp only [findGo, rowMatches, List.find?]
    by_cases hA : ((q == pyLower (pyStrip r.student_id)) || (q == pyLower (pyStrip r.name))
        || pyIn q (pyLower (pyStrip r.name)) || (q == pyLower (pyStrip r.domain))) = true
    · simp [hA]
    · by_cases hB : ((safe_split r.skills).any
          (fun sk => pyIn (pyLower (pyStrip sk)) q)) = true
      · simp [hA, hB]
      · simp [hA, hB, ih, rowMatches]

theorem any_swap {α β : Type} (l : List α) (m : List β) (g : α → β → Bool) :
    (l.any fun a => m.any fun b => g a b)
      = (m.any fun b => l.any fun a => g a b) := by
  rw [Bool.eq_iff_iff]
  simp only [List.any_eq_true]
  constructor
  · rintro ⟨a, ha, b, hb, hg⟩; exact ⟨b, hb, a, ha, hg⟩
  · rintro ⟨b, hb, a, ha, hg⟩; exact ⟨a, ha, b, hb, hg⟩

theorem fitValues_eq_map (skills_list : List String) :
    ∀ reqs : List String,
      fitValues (skills_list.map pyLower) reqs
        = reqs.map (claimFitValue skills_list)
  | [] => rfl
  | r :: rs => by
    simp only [fitValues, List.map_cons, claimFitValue]
    rw [fitValues_eq_map skills_list rs,
      any_swap (skills_list.map pyLower) (pySplitWs r)
        (fun sk part => pyIn (pyLower part) sk)]

theorem USERS_match_ne_empty (u p : String)
    (h : dlookup USERS u = some p) : u ≠ "" ∧ p ≠ "" := by
  simp only [USERS, dlookup] at h
  split_ifs at h with h1 h2 <;> simp only [Option.some.injEq] at h
  · subst h; subst h1; exact ⟨by decide, by decide⟩
  · subst h; subst h2; exact ⟨by decide, by decide⟩

/- ------------------------------------------------------------------ -/
/- Claim theorems                                                     -/
/- ------------------------------------------------------------------ -/

/-- C3 counterexample: the claim includes "the query contains the record's
domain" and "the query contains the record's name" among the match
conditions, but `find_profile` checks neither.  The query
"I love data Aishwarya Iyer" contains both the domain "Data" and the name
"Aishwarya Iyer" of the first sample record, so the claimed resolver returns
that record, while the code finds nothing. -/
theorem find_profile_claim_counterexample :
    claimRowMatches (pyLower (pyStrip "I love data Aishwarya Iyer")) SAMPLE_ROW1 = true ∧
    (SAMPLE_DATA.find?
        (fun r => claimRowMatches (pyLower (pyStrip "I love data Aishwarya Iyer")) r)).map
      Record.student_id = some "1001" ∧
    find_profile SAMPLE_DATA "I love data Aishwarya Iyer" = none := by
  refine ⟨by decide, ?_, by decide⟩
  decide

/-- C3 amended: `find_profile` scans the rows in dataset order in a single
pass and returns the first record satisfying, per record, (1) case-insensitive
exact match on identifier, (2) case-insensitive exact match on name, (3) the
record's name contains the query (the claim's further "query contains the
record's name/domain" parts do not hold, see the counterexample), (4)
case-insensitive exact match on domain, or (5) some record skill appearing as
a substring of the query; it returns none exactly when no record satisfies
any condition. -/
theorem find_profile_amended (rows : List Record) (query : String) :
    find_profile rows query
        = rows.find? (fun r => rowMatches (pyLower (pyStrip query)) r) ∧
    (find_profile rows query = none ↔
      ∀ r ∈ rows, rowMatches (pyLower (pyStrip query)) r = false) := by
  refine ⟨findGo_eq_find _ _, ?_⟩
  rw [find_profile, findGo_eq_find, List.find?_eq_none]
  simp

/-- C2 counterexample: the claim says "guest" is returned exactly when both
fields are empty and "error" in every other unmatched case; but for
username "kirubha" with an empty password (not both empty, not a credential
match) the code returns "guest", not "error". -/
theorem login_claim_counterexample :
    (login [] "kirubha" "" "fresh-1").2.status = "guest" ∧
    (login [] "kirubha" "" "fresh-1").2.status ≠ "error" ∧
    ¬("kirubha" = "" ∧ "" = "") := by
  decide

/-- C2 amended: the status is "ok" exactly when the (username, password)
pair matches the fixed credential table, "guest" exactly when the username
OR the password field is empty/missing (not: both), and "error" otherwise;
the guest case issues the freshly generated identifier and stores under it a
fresh session with empty history and user "guest". -/
theorem login_amended (st : Store) (u p f : String) :
    ((login st u p f).2.status = "ok" ↔ dlookup USERS u = some p) ∧
    ((login st u p f).2.status = "guest" ↔ (u = "" ∨ p = "")) ∧
    ((login st u p f).2.status = "error" ↔
      (u ≠ "" ∧ p ≠ "" ∧ dlookup USERS u ≠ some p)) ∧
    ((u = "" ∨ p = "") →
      (login st u p f).2.session_id = some f ∧
      dlookup (login st u p f).1 f = some ⟨[], "guest"⟩) ∧
    (dlookup USERS u = some p →
      (login st u p f).2.session_id = some u ∧
      dlookup (login st u p f).1 u = some ⟨[], u⟩) := by
  by_cases hg : u = "" ∨ p = ""
  · have hnm : dlookup USERS u ≠ some p := by
      intro hm
      obtain ⟨hu, hp⟩ := USERS_match_ne_empty u p hm
      rcases hg with rfl | rfl
      · exact hu rfl
      · exact hp rfl
    have hlogin : login st u p f
        = (dset st f ⟨[], "guest"⟩, ⟨"guest", some f, "Guest session started"⟩) := by
      rw [login, if_pos hg]
    rw [hlogin]
    refine ⟨⟨fun h => absurd (show "guest" = "ok" from h) (by decide),
        fun hm => absurd hm hnm⟩,
      ⟨fun _ => hg, fun _ => rfl⟩,
      ⟨fun h => absurd (show "guest" = "error" from h) (by decide), fun h => ?_⟩,
      fun _ => ⟨rfl, dlookup_dset_self st f _⟩,
      fun hm => absurd hm hnm⟩
    rcases hg with rfl | rfl
    · exact absurd rfl h.1
    · exact absurd rfl h.2.1
  · push_neg at hg
    by_cases hm : dlookup USERS u = some p
    · have hlogin : login st u p f
          = (dset st u ⟨[], u⟩, ⟨"ok", some u, "Welcome " ++ u⟩) := by
        rw [login, if_neg (by rintro (rfl | rfl) <;> simp_all), if_pos hm]
      rw [hlogin]
      refine ⟨⟨fun _ => hm, fun _ => rfl⟩,
        ⟨fun h => absurd (show "ok" = "guest" from h) (by decide), fun h => ?_⟩,
        ⟨fun h => absurd (show "ok" = "error" from h) (by decide),
          fun h => absurd hm h.2.2⟩,
        fun h => ?_,
        fun _ => ⟨rfl, dlookup_dset_self st u _⟩⟩
      · rcases h with rfl | rfl
        · exact absurd rfl hg.1
        · exact absurd rfl hg.2
      · rcases h with rfl | rfl
        · exact absurd rfl hg.1
        · exact absurd rfl hg.2
    · have hlogin : login st u p f = (st, ⟨"error", none, "Invalid credentials"⟩) := by
        rw [login, if_neg (by rintro (rfl | rfl) <;> simp_all), if_neg hm]
      rw [hlogin]
      refine ⟨⟨fun h => absurd (show "error" = "ok" from h) (by decide),
          fun h => absurd h hm⟩,
        ⟨fun h => absurd (show "error" = "guest" from h) (by decide), fun h => ?_⟩,
        ⟨fun _ => ⟨hg.1, hg.2, hm⟩, fun _ => rfl⟩,
        fun h => ?_,
        fun h => absurd h hm⟩
      · rcases h with rfl | rfl
        · exact absurd rfl hg.1
        · exact absurd rfl hg.2
      · rcases h with rfl | rfl
        · exact absurd rfl hg.1
        · exact absurd rfl hg.2

/-- C2 witness: the amended characterisation applied to the empty-empty
body: a "guest" status and a fresh guest session under the generated id. -/
theorem login_amended_witness :
    (login [] "" "" "fresh-2").2.status = "guest" ∧
    (login [] "" "" "fresh-2").2.session_id = some "fresh-2" ∧
    dlookup (login [] "" "" "fresh-2").1 "fresh-2" = some ⟨[], "guest"⟩ :=
  ⟨((login_amended [] "" "" "fresh-2").2.1).mpr (Or.inl rfl),
   ((login_amended [] "" "" "fresh-2").2.2.2.1 (Or.inl rfl)).1,
   ((login_amended [] "" "" "fresh-2").2.2.2.1 (Or.inl rfl)).2⟩

/-- C4 counterexample: a returning authenticated user's prior history is NOT
preserved: with a stored session for "kirubha" holding one message, a
successful re-login leaves that session with an empty history. -/
theorem login_history_counterexample :
    (dlookup [("kirubha", ⟨[("user", "hello")], "kirubha"⟩)] "kirubha").map
        Session.history = some [("user", "hello")] ∧
    (dlookup (login [("kirubha", ⟨[("user", "hello")], "kirubha"⟩)]
          "kirubha" "12345" "fresh-1").1 "kirubha").map
        Session.history = some [] := by
  decide

/-- C4 amended: each successful login does use the username itself as the
session identifier, but it RESETS the stored session to an empty history
(user = username): prior messages under that identifier are discarded, not
merged. -/
theorem login_resets_session (st : Store) (u p f : String)
    (hm : dlookup USERS u = some p) :
    (login st u p f).2.status = "ok" ∧
    (login st u p f).2.session_id = some u ∧
    dlookup (login st u p f).1 u = some ⟨[], u⟩ := by
  obtain ⟨hu, hp⟩ := USERS_match_ne_empty u p hm
  have hlogin : login st u p f
      = (dset st u ⟨[], u⟩, ⟨"ok", some u, "Welcome " ++ u⟩) := by
    rw [login, if_neg (by rintro (rfl | rfl) <;> simp_all), if_pos hm]
  rw [hlogin]
  exact ⟨rfl, rfl, dlookup_dset_self st u _⟩

/-- C4 witness: the amended theorem applied to a store already holding a
"kirubha" session with one message. -/
theorem login_resets_session_witness :
    (login [("kirubha", ⟨[("user", "hello")], "kirubha"⟩)]
        "kirubha" "12345" "fresh-1").2.status = "ok" ∧
    (login [("kirubha", ⟨[("user", "hello")], "kirubha"⟩)]
        "kirubha" "12345" "fresh-1").2.session_id = some "kirubha" ∧
    dlookup (login [("kirubha", ⟨[("user", "hello")], "kirubha"⟩)]
        "kirubha" "12345" "fresh-1").1 "kirubha" = some ⟨[], "kirubha"⟩ :=
  login_resets_session _ "kirubha" "12345" "fresh-1" (by decide)

/-- C7: `compute_skill_fit` returns as labels the domain's required-skill
list from `DOMAIN_SKILL_MAP` (empty when the domain is unknown) and a values
list parallel to it, each value being 100 for a verbatim case-insensitive
hit, 60 for a whitespace-token substring hit, else 20; in particular
`compute_skill_fit ["Python","SQL"] "Data"` scores 100 for "SQL" and 20 for
"Excel" (and 20 for the remaining required skills). -/
theorem compute_skill_fit_spec (skills_list : List String) (domain : String) :
    compute_skill_fit skills_list domain
        = ((dlookup DOMAIN_SKILL_MAP domain).getD [],
           ((dlookup DOMAIN_SKILL_MAP domain).getD []).map
             (claimFitValue skills_list)) ∧
    (compute_skill_fit skills_list domain).2.length
        = (compute_skill_fit skills_list domain).1.length ∧
    compute_skill_fit ["Python", "SQL"] "Data"
        = (["SQL", "Excel", "Power BI", "Tableau", "Pandas", "NumPy", "Statistics"],
           [100, 20, 20, 20, 20, 20, 20]) := by
  refine ⟨?_, ?_, by decide⟩
  · rw [compute_skill_fit, fitValues_eq_map]
  · rw [compute_skill_fit, fitValues_eq_map]
    simp

/-- C5 counterexample: the claim reads the threshold table against the
RETURNED (rounded) score, but the code applies the thresholds to the
unrounded score and only then rounds.  For gpa 9, 10th marks 80, 12th marks
79.84 (all in range) the raw score is 84.96: the returned score is 85.0 yet
the level is "Good", not "Excellent". -/
theorem performance_level_counterexample :
    performance_level (some 9) (some 80) (some 79.84) = ("Good", 85) ∧
    (0:ℚ) ≤ 9 ∧ (9:ℚ) ≤ 10 ∧ (0:ℚ) ≤ 80 ∧ (80:ℚ) ≤ 100 ∧
    (0:ℚ) ≤ 79.84 ∧ (79.84:ℚ) ≤ 100 ∧ "Good" ≠ "Excellent" := by
  have hraw : raw_score (some 9) (some 80) (some 79.84) = 2124/25 := by
    norm_num [raw_score]
  refine ⟨?_, by norm_num, by norm_num, by norm_num, by norm_num,
    by norm_num, by norm_num, by decide⟩
  simp only [performance_level, hraw, round1]
  norm_num [Prod.ext_iff]

/-- C5 amended: the score is the weighted sum (gpa/10 × 50) + (marks10/100 ×
25) + (marks12/100 × 25) with missing components contributing 0, returned
rounded to 1 decimal, and lies in [0,100] for in-range inputs; but the level
matches the threshold table applied to the UNROUNDED score (the boundary
cases hold for the unrounded value: 85.0 → "Excellent", 84.9 → "Good", 70.0
→ "Good", 69.9 → "Needs Improvement"), not to the returned rounded score. -/
theorem performance_level_amended (gpa m10 m12 : Option ℚ)
    (hg : ∀ x, gpa = some x → 0 ≤ x ∧ x ≤ 10)
    (h10 : ∀ x, m10 = some x → 0 ≤ x ∧ x ≤ 100)
    (h12 : ∀ x, m12 = some x → 0 ≤ x ∧ x ≤ 100) :
    performance_level gpa m10 m12
        = (if raw_score gpa m10 m12 ≥ 85 then "Excellent"
           else if raw_score gpa m10 m12 ≥ 70 then "Good"
           else "Needs Improvement", round1 (raw_score gpa m10 m12)) ∧
    0 ≤ (performance_level gpa m10 m12).2 ∧
    (performance_level gpa m10 m12).2 ≤ 100 ∧
    performance_level (some 8.5) (some 85) (some 85) = ("Excellent", 85) ∧
    performance_level (some 8.5) (some 85) (some 84.6) = ("Good", 84.9) ∧
    performance_level (some 7) (some 70) (some 70) = ("Good", 70) ∧
    performance_level (some 7) (some 70) (some 69.6)
        = ("Needs Improvement", 69.9) := by
  have e1 : ∃ v, (match gpa with | some g => g / 10 * 50 | none => 0) = v ∧
      0 ≤ v ∧ v ≤ 50 := by
    rcases gpa with _ | g
    · exact ⟨0, rfl, by norm_num, by norm_num⟩
    · obtain ⟨ha, hb⟩ := hg g rfl
      exact ⟨g / 10 * 50, rfl, by nlinarith, by nlinarith⟩
  have e2 : ∃ v, (match m10 with | some m => m / 100 * 25 | none => 0) = v ∧
      0 ≤ v ∧ v ≤ 25 := by
    rcases m10 with _ | m
    · exact ⟨0, rfl, by norm_num, by norm_num⟩
    · obtain ⟨ha, hb⟩ := h10 m rfl
      exact ⟨m / 100 * 25, rfl, by nlinarith, by nlinarith⟩
  have e3 : ∃ v, (match m12 with | some m => m / 100 * 25 | none => 0) = v ∧
      0 ≤ v ∧ v ≤ 25 := by
    rcases m12 with _ | m
    · exact ⟨0, rfl, by norm_num, by norm_num⟩
    · obtain ⟨ha, hb⟩ := h12 m rfl
      exact ⟨m / 100 * 25, rfl, by nlinarith, by nlinarith⟩
  obtain ⟨v1, hv1, hv1a, hv1b⟩ := e1
  obtain ⟨v2, hv2, hv2a, hv2b⟩ := e2
  obtain ⟨v3, hv3, hv3a, hv3b⟩ := e3
  have hb : 0 ≤ raw_score gpa m10 m12 ∧ raw_score gpa m10 m12 ≤ 100 := by
    unfold raw_score
    rw [hv1, hv2, hv3]
    constructor <;> linarith
  have hsnd : (performance_level gpa m10 m12).2
      = round1 (raw_score gpa m10 m12) := rfl
  refine ⟨rfl, ?_, ?_, ?_, ?_, ?_, ?_⟩
  · rw [hsnd]; exact round1_nonneg hb.1
  · rw [hsnd]; exact round1_le_100 hb.2
  · have hraw : raw_score (some 8.5) (some 85) (some 85) = 85 := by
      norm_num [raw_score]
    simp only [performance_level, hraw, round1]
    norm_num [Prod.ext_iff]
  · have hraw : raw_score (some 8.5) (some 85) (some 84.6) = 849/10 := by
      norm_num [raw_score]
    simp only [performance_level, hraw, round1]
    norm_num [Prod.ext_iff]
  · have hraw : raw_score (some 7) (some 70) (some 70) = 70 := by
      norm_num [raw_score]
    simp only [performance_level, hraw, round1]
    norm_num [Prod.ext_iff]
  · have hraw : raw_score (some 7) (some 70) (some 69.6) = 699/10 := by
      norm_num [raw_score]
    simp only [performance_level, hraw, round1]
    norm_num [Prod.ext_iff]

/-- C5 witness: the amended theorem applied to in-range inputs gpa 9,
marks 80 and 80. -/
theorem performance_level_amended_witness :
    0 ≤ (performance_level (some 9) (some 80) (some 80)).2 ∧
    (performance_level (some 9) (some 80) (some 80)).2 ≤ 100 :=
  ⟨(performance_level_amended (some 9) (some 80) (some 80)
      (by rintro x hx; injection hx with h; subst h; exact ⟨by decide, by decide⟩)
      (by rintro x hx; injection hx with h; subst h; exact ⟨by decide, by decide⟩)
      (by rintro x hx; injection hx with h; subst h; exact ⟨by decide, by decide⟩)).2.1,
   (performance_level_amended (some 9) (some 80) (some 80)
      (by rintro x hx; injection hx with h; subst h; exact ⟨by decide, by decide⟩)
      (by rintro x hx; injection hx with h; subst h; exact ⟨by decide, by decide⟩)
      (by rintro x hx; injection hx with h; subst h; exact ⟨by decide, by decide⟩)).2.2.1⟩

/-- C6: splitting `Career_Suggestions` into n ≥ 1 items, every item gets the
equal weight round(100/n, 1) except that the last item's weight absorbs the
rounding remainder (its weight is 100 minus the other n-1 equal weights), so
the weights always sum to exactly 100; when the split is empty the result is
the empty list. -/
theorem build_career_weights_spec (field : String) :
    (safe_split field = [] → build_career_weights field = []) ∧
    (safe_split field ≠ [] →
      (build_career_weights field).map Prod.fst = safe_split field ∧
      (build_career_weights field).map Prod.snd =
        List.replicate ((safe_split field).length - 1)
            (round1 (100 / ((safe_split field).length : ℚ)))
          ++ [100 - (((safe_split field).length : ℚ) - 1)
                * round1 (100 / ((safe_split field).length : ℚ))] ∧
      ((build_career_weights field).map Prod.snd).sum = 100) := by
  constructor
  · intro h
    simp [build_career_weights, h]
  · intro h
    obtain ⟨n, hn⟩ : ∃ n, (safe_split field).length = n + 1 := by
      cases hcs : safe_split field with
      | nil => exact absurd hcs h
      | cons a l => exact ⟨l.length, by simp [hcs]⟩
    have hcast : (((safe_split field).length : ℚ) - 1) = (n : ℚ) := by
      rw [hn]; push_cast; ring
    simp only [build_career_weights, if_neg h, hn, hcast,
      Nat.add_sub_cancel]
    rw [career_weights_shape n _ (round1_shape _)]
    have hlen : (safe_split field).length
        = (List.replicate n (round1 (100 / ((n + 1 : ℕ) : ℚ)))
            ++ [100 - (n : ℚ) * round1 (100 / ((n + 1 : ℕ) : ℚ))]).length := by
      simp [hn]
    refine ⟨map_fst_zip_eq _ _ hlen, ?_, ?_⟩
    · rw [map_snd_zip_eq _ _ hlen]
      norm_num
    · rw [map_snd_zip_eq _ _ hlen]
      exact sum_replicate_append_100 n _

/-- C6 witness: three careers get weights 33.3, 33.3 and 33.4, summing to
exactly 100. -/
theorem build_career_weights_spec_witness :
    safe_split "A;B;C" ≠ [] ∧
    ((build_career_weights "A;B;C").map Prod.snd).sum = 100 :=
  ⟨by decide, ((build_career_weights_spec "A;B;C").2 (by decide)).2.2⟩

/-- C1 (code_bug evidence): for the present student id "1001" the handler
draws the complete document — the title line "Career Plan — Aishwarya Iyer
(ID: 1001)" is on the canvas — but the function body ends without
`c.save()` and without returning the `FileResponse`: those two lines sit
unreachably after the `return` of the `root` handler (app.py:351-354).  So
the found-student path produces no PDF response (`none` in the response
slot), contradicting the handler's own docstring (app.py:8). -/
theorem download_plan_no_response :
    (download_plan SAMPLE_DATA "1001").toOption.map Prod.snd = some none ∧
    (download_plan SAMPLE_DATA "1001").toOption.map
        (fun p => p.1.current.contains
          ⟨"Helvetica-Bold", 16, 40, 750, "Career Plan — Aishwarya Iyer (ID: 1001)"⟩)
      = some true ∧
    (download_plan SAMPLE_DATA "9999").toOption = none := by
  refine ⟨by decide, by decide, by decide⟩

/-- C9: on an empty (after trimming) query, `/ask` answers exactly
"Please send a Student ID, Name, or skill." as a plain response that carries
no insights (and no session_id); on a non-empty query matching no profile it
likewise returns a plain answer string with no insights. -/
theorem ask_error_answers (rows : List Record) (st : Store) (q : String)
    (sidOpt : Option String) (f : String)
    (h : pyStrip q = "" ∨ find_profile rows (pyStrip q) = none) :
    ∃ m, (ask rows st q sidOpt f).2 = .plain m ∧
      insightsOf (ask rows st q sidOpt f).2 = none ∧
      (pyStrip q = "" → m = emptyQueryMsg) ∧
      (pyStrip q ≠ "" → m = noMatchMsg) := by
  by_cases hq : pyStrip q = ""
  · refine ⟨emptyQueryMsg, ?_, ?_, fun _ => rfl, fun hne => absurd hq hne⟩
    · simp [ask, hq]
    · simp [ask, hq, insightsOf]
  · have hf : find_profile rows (pyStrip q) = none := h.resolve_left hq
    refine ⟨noMatchMsg, ?_, ?_, fun he => absurd he hq, fun _ => rfl⟩
    · simp [ask, hq, hf]
    · simp [ask, hq, hf, insightsOf]

/-- C9 witness: the empty query against the sample dataset. -/
theorem ask_error_answers_witness :
    ∃ m, (ask SAMPLE_DATA [] "" none "w9").2 = .plain m ∧
      insightsOf (ask SAMPLE_DATA [] "" none "w9").2 = none ∧
      (pyStrip "" = "" → m = emptyQueryMsg) ∧
      (pyStrip "" ≠ "" → m = noMatchMsg) :=
  ask_error_answers SAMPLE_DATA [] "" none "w9" (Or.inl (by decide))

/-- C10: every `/ask` call with a parsable body mutates the session store
before any query validation: a missing/empty session id leads to a fresh
guest session under the generated id, an unknown id to a fresh guest session
under that id, and the trimmed query is appended to the session history as a
user message even on the empty-query and no-match paths (the no-match path
further appends the system reply); the empty-query response is the plain
answer, which carries no session_id. -/
theorem ask_mutates_before_validation (rows : List Record) (st : Store)
    (q : String) (sidOpt : Option String) (f : String)
    (h : pyStrip q = "" ∨ find_profile rows (pyStrip q) = none) :
    dlookup (ask rows st q sidOpt f).1 (effSid sidOpt f) =
      some ⟨(preSession st sidOpt).history ++ [("user", pyStrip q)]
              ++ (if pyStrip q = "" then [] else [("elix", noMatchMsg)]),
            (preSession st sidOpt).user⟩ ∧
    ((sidOpt = none ∨ sidOpt = some "") → preSession st sidOpt = ⟨[], "guest"⟩) ∧
    (∀ s, sidOpt = some s → s ≠ "" → dlookup st s = none →
      preSession st sidOpt = ⟨[], "guest"⟩) ∧
    (pyStrip q = "" → (ask rows st q sidOpt f).2 = .plain emptyQueryMsg) := by
  refine ⟨?_, ?_, ?_, ?_⟩
  case refine_2 =>
    rintro (rfl | rfl)
    · rfl
    · simp [preSession]
  case refine_3 =>
    rintro s rfl hs hl
    simp [preSession, hs, hl]
  case refine_4 =>
    intro hq
    simp [ask, hq]
  case refine_1 =>
    by_cases hq : pyStrip q = ""
    · cases sidOpt with
      | none =>
        simp [ask, hq, effSid, preSession, dlookup_appendHist_self,
          dlookup_dsetdefault_self, dlookup_dset_self]
      | some s =>
        by_cases hs : s = ""
        · subst hs
          simp [ask, hq, effSid, preSession, dlookup_appendHist_self,
            dlookup_dsetdefault_self, dlookup_dset_self]
        · simp [ask, hq, hs, effSid, preSession, dlookup_appendHist_self,
            dlookup_dsetdefault_self]
    · have hf : find_profile rows (pyStrip q) = none := h.resolve_left hq
      cases sidOpt with
      | none =>
        simp [ask, hq, hf, effSid, preSession, dlookup_appendHist_self,
          dlookup_dsetdefault_self, dlookup_dset_self]
      | some s =>
        by_cases hs : s = ""
        · subst hs
          simp [ask, hq, hf, effSid, preSession, dlookup_appendHist_self,
            dlookup_dsetdefault_self, dlookup_dset_self]
        · simp [ask, hq, hs, hf, effSid, preSession, dlookup_appendHist_self,
            dlookup_dsetdefault_self]

/-- C10 witness: a no-session-id call with an empty query against the sample
dataset. -/
theorem ask_mutates_before_validation_witness :
    dlookup (ask SAMPLE_DATA [] "" none "w10").1 (effSid none "w10") =
      some ⟨(preSession [] none).history ++ [("user", pyStrip "")]
              ++ (if pyStrip "" = "" then [] else [("elix", noMatchMsg)]),
            (preSession [] none).user⟩ ∧
    ((none = (none : Option String) ∨ none = some "") →
      preSession [] none = ⟨[], "guest"⟩) ∧
    (∀ s, none = some s → s ≠ "" → dlookup ([] : Store) s = none →
      preSession [] none = ⟨[], "guest"⟩) ∧
    (pyStrip "" = "" → (ask SAMPLE_DATA [] "" none "w10").2 = .plain emptyQueryMsg) :=
  ask_mutates_before_validation SAMPLE_DATA [] "" none "w10" (Or.inl (by decide))

/-- C8: for every matched record, the roadmap in the insights is the
`ROADMAPS` entry for the record's domain, falling back to the "Data" roadmap
when the domain is absent; internships and certifications are the record's
own split values when non-empty, otherwise the domain's static defaults,
otherwise the empty list when the domain is unknown. -/
theorem ask_roadmap_fallbacks (rows : List Record) (st : Store) (q : String)
    (sidOpt : Option String) (f : String) (r : Record)
    (hq : pyStrip q ≠ "") (hr : find_profile rows (pyStrip q) = some r) :
    ∃ ins, insightsOf (ask rows st q sidOpt f).2 = some ins ∧
      (∀ rm, dlookup ROADMAPS r.domain = some rm → ins.roadmap = rm) ∧
      (dlookup ROADMAPS r.domain = none → ins.roadmap = dataRoadmap) ∧
      (safe_split r.internships ≠ [] →
        ins.internships = safe_split r.internships) ∧
      (safe_split r.internships = [] →
        ins.internships = (dlookup DEFAULT_INTERNSHIPS r.domain).getD []) ∧
      (safe_split r.internships = [] → dlookup DEFAULT_INTERNSHIPS r.domain = none →
        ins.internships = []) ∧
      (safe_split r.certifications ≠ [] →
        ins.certifications = safe_split r.certifications) ∧
      (safe_split r.certifications = [] →
        ins.certifications = (dlookup DEFAULT_CERTIFICATIONS r.domain).getD []) ∧
      (safe_split r.certifications = [] →
          dlookup DEFAULT_CERTIFICATIONS r.domain = none →
        ins.certifications = []) := by
  simp only [ask, hq, hr, if_neg hq, insightsOf]
  refine ⟨_, rfl, ?_, ?_, ?_, ?_, ?_, ?_, ?_, ?_⟩
  · intro rm hrm; simp [hrm]
  · intro hrm; simp [hrm]
  · intro hni; simp [hni]
  · intro hni; simp [hni]
  · intro hni hd; simp [hni, hd]
  · intro hnc; simp [hnc]
  · intro hnc; simp [hnc]
  · intro hnc hd; simp [hnc, hd]

/-- C8 witness: the query "1001" resolves to the first sample record (domain
"Data", with its own internships and certifications). -/
theorem ask_roadmap_fallbacks_witness :
    ∃ ins, insightsOf (ask SAMPLE_DATA [] "1001" none "w8").2 = some ins ∧
      (∀ rm, dlookup ROADMAPS SAMPLE_ROW1.domain = some rm → ins.roadmap = rm) ∧
      (dlookup ROADMAPS SAMPLE_ROW1.domain = none → ins.roadmap = dataRoadmap) ∧
      (safe_split SAMPLE_ROW1.internships ≠ [] →
        ins.internships = safe_split SAMPLE_ROW1.internships) ∧
      (safe_split SAMPLE_ROW1.internships = [] →
        ins.internships = (dlookup DEFAULT_INTERNSHIPS SAMPLE_ROW1.domain).getD []) ∧
      (safe_split SAMPLE_ROW1.internships = [] →
          dlookup DEFAULT_INTERNSHIPS SAMPLE_ROW1.domain = none →
        ins.internships = []) ∧
      (safe_split SAMPLE_ROW1.certifications ≠ [] →
        ins.certifications = safe_split SAMPLE_ROW1.certifications) ∧
      (safe_split SAMPLE_ROW1.certifications = [] →
        ins.certifications
          = (dlookup DEFAULT_CERTIFICATIONS SAMPLE_ROW1.domain).getD []) ∧
      (safe_split SAMPLE_ROW1.certifications = [] →
          dlookup DEFAULT_CERTIFICATIONS SAMPLE_ROW1.domain = none →
        ins.certifications = []) :=
  ask_roadmap_fallbacks SAMPLE_DATA [] "1001" none "w8" SAMPLE_ROW1
    (by decide) rfl

end Elix



